import Mathlib

/-!
# WebRTCNS: the public control surface of the fixed-point noise suppressor

Shallow embedding of `Sources/WebRTCNS/noise_suppression_x.c`.

A handle (`NsxHandle *`) is modelled as `Option NoiseSuppressionFixedC`: `none` is the NULL
pointer, `some s` is a pointer to an instance whose fields currently hold `s`.  Every access
through a pointer is explicit: a load or a store through `none` is a `Fault`, so that the order
in which the source tests and dereferences a pointer is visible in the model.
-/

namespace WebRTCNS

/-! ## Machine integers -/

/-- Smallest value of the C type `int` (32 bit). -/
def INT_MIN : Int := -2147483648

/-- Largest value of the C type `int` (32 bit). -/
def INT_MAX : Int := 2147483647

/-- Value held by an `int` object after the mathematical integer `x` is stored into it: `x`
itself when it is an `int` value, and otherwise its reduction modulo 2^32 into
`INT_MIN .. INT_MAX` (C leaves signed overflow undefined; the usual wrap-around is taken). -/
def wrapInt (x : Int) : Int := (x + 2147483648) % 4294967296 - 2147483648

/-! ## Data model -/

/-- Modelled from the spec: the Transform Adapter resource (`struct RealFFT`, declared in the
absent `include/real_fft.h`).  The spec only says that it is sized for the block length of the
sample rate given to `Init`; the resource records that sample rate. -/
structure RealFFT where
  sizedFor : Nat
  deriving DecidableEq

/-- Modelled from the spec: the engine instance `NoiseSuppressionFixedC`, whose declaration
(`nsx_core.h`) is absent.  The four fields that `noise_suppression_x.c` touches are kept under
their own names, typed by the way that file uses them: the initialization flag and the scale
adjustment of the noise estimate are integers, the previous noise power estimate is an array of
`uint32_t`, and the transform handle is a pointer.  All remaining state of the data model is kept
together, as a list of words, in `others`. -/
structure NoiseSuppressionFixedC where
  /-- Field `real_fft`, the owned transform resource; `none` is NULL. -/
  real_fft : Option RealFFT
  /-- Field `initFlag`. -/
  initFlag : Int
  /-- Field `prevQNoise`, the current scale adjustment of the stored noise estimate. -/
  prevQNoise : Int
  /-- Field `prevNoiseU32`, the stored per-bin noise estimate (an array of `uint32_t`). -/
  prevNoiseU32 : List Nat
  /-- All other fields of the instance. -/
  others : List Int
  deriving DecidableEq

/-- A handle: `none` is NULL, `some s` points to an instance holding `s`. -/
abbrev NsxHandle := Option NoiseSuppressionFixedC

/-- Names of the instance fields that the accessor may load. -/
inductive Field where
  | initFlag
  | prevQNoise
  deriving DecidableEq

/-- Ways in which an execution leaves defined behaviour. -/
inductive Fault where
  /-- A field was loaded through a NULL instance pointer. -/
  | nullRead
  /-- A field was stored through a NULL instance pointer. -/
  | nullWrite
  deriving DecidableEq

deriving instance DecidableEq for Except

/-- An instance is zeroed when every one of its fields is zero. -/
def NoiseSuppressionFixedC.isZeroed (s : NoiseSuppressionFixedC) : Bool :=
  s.real_fft.isNone && s.initFlag == 0 && s.prevQNoise == 0 &&
    s.prevNoiseU32.all (fun x => x == 0) && s.others.all (fun x => x == 0)

/-! ## `WebRtcNsx_Create` -/

/-- Store `self->real_fft = v`. -/
def store_real_fft (self : NsxHandle) (v : Option RealFFT) : Except Fault NsxHandle :=
  match self with
  | none => .error .nullWrite
  | some s => .ok (some { s with real_fft := v })

/-- Store `self->initFlag = v`. -/
def store_initFlag (self : NsxHandle) (v : Int) : Except Fault NsxHandle :=
  match self with
  | none => .error .nullWrite
  | some s => .ok (some { s with initFlag := v })

/-- Function `WebRtcNsx_Create`.  The argument is what `malloc(sizeof(NoiseSuppressionFixedC))` hands back:
`none` when it returns NULL, `some b` when it returns a block whose bytes, read as an instance,
are `b` (`malloc` does not clear the block).  The two stores are made through `self` without any
test of `self`. -/
def WebRtcNsx_Create (malloc : Option NoiseSuppressionFixedC) : Except Fault NsxHandle := do
  let self := malloc
  let self ← store_real_fft self none          -- self->real_fft = NULL;
  let self ← store_initFlag self 0             -- self->initFlag = 0;
  return self                                  -- return (NsxHandle *) self;

/-! ## `WebRtcNsx_noise_estimate` -/

/-- Memory seen by the accessor: the object behind the handle, the `int` object of the caller
behind `q_noise` (an object of its own, outside the instance), and the log of the instance fields
loaded so far. -/
structure Mem where
  nsxInst : NsxHandle
  q_noise : Int
  reads : List Field
  deriving DecidableEq

/-- Load `self->initFlag`. -/
def load_initFlag (m : Mem) : Except Fault (Int × Mem) :=
  match m.nsxInst with
  | none => .error .nullRead
  | some s => .ok (s.initFlag, { m with reads := m.reads ++ [Field.initFlag] })

/-- Load `self->prevQNoise`. -/
def load_prevQNoise (m : Mem) : Except Fault (Int × Mem) :=
  match m.nsxInst with
  | none => .error .nullRead
  | some s => .ok (s.prevQNoise, { m with reads := m.reads ++ [Field.prevQNoise] })

/-- The pointer `self->prevNoiseU32` (the array decays to the address of its first element; no
element is loaded).  The pointer is represented by the array it designates. -/
def addr_prevNoiseU32 (m : Mem) : Except Fault (List Nat) :=
  match m.nsxInst with
  | none => .error .nullRead
  | some s => .ok s.prevNoiseU32

/-- Result of a call of the accessor: the returned pointer (`none` is NULL, `some a` is a pointer
to the array `a` of per-bin estimates) and the memory after the call. -/
structure NoiseEstimateResult where
  ret : Option (List Nat)
  mem : Mem
  deriving DecidableEq

/-- Function `WebRtcNsx_noise_estimate`.  `q_noise` is the value that the `int` object of the
caller holds before the call.  The left operand of `||` is evaluated first and the right one only when the left one is
false. -/
def WebRtcNsx_noise_estimate (nsxInst : NsxHandle) (q_noise : Int) :
    Except Fault NoiseEstimateResult := do
  let m : Mem := { nsxInst := nsxInst, q_noise := q_noise, reads := [] }
  let m : Mem := { m with q_noise := 11 }                       -- *q_noise = 11;
  let (cond, m) ←
    if nsxInst.isNone then                                      -- nsxInst == NULL ||
      pure (true, m)
    else do
      let (flag, m) ← load_initFlag m                           -- self->initFlag == 0
      pure (flag == 0, m)
  if cond then
    return { ret := none, mem := m }                            -- return NULL;
  let (prevQNoise, m) ← load_prevQNoise m
  let m : Mem := { m with q_noise := wrapInt (m.q_noise + prevQNoise) } -- *q_noise += self->prevQNoise;
  let arr ← addr_prevNoiseU32 m
  return { ret := some arr, mem := m }                          -- return self->prevNoiseU32;

/-! ## `WebRtcNsx_Init` -/

/-- Modelled from the spec: the sample rates that `Init` accepts (narrowband 8 kHz, wideband
16 kHz, super-wideband 32 kHz).  The test is made by `WebRtcNsx_InitCore`, whose file
(`nsx_core.c`) is absent. -/
def supportedRate (fs : Nat) : Bool := fs == 8000 || fs == 16000 || fs == 32000

/-- Modelled from the spec: the status `Init` reports, a success code or InvalidArgument.  The
numeric codes are fixed by the absent `nsx_core.c`. -/
inductive InitStatus where
  | success
  | invalidArgument
  deriving DecidableEq

/-- Modelled from the spec: `WebRtcNsx_InitCore`, defined in the absent `nsx_core.c`.  The spec
gives `Init` as: validate that the sample rate is supported and fail with InvalidArgument
otherwise; allocate the Transform Adapter for the corresponding block length; reset all history
buffers to zero; set the initialization flag to true; return the success code.  Re-Init fully
resets the state, so the scale adjustment paired with the zeroed noise estimate is zero as well.
The values given to the remaining fields (block length, band count, gains, overlap tail) are not
fixed by the spec; `populate` supplies them from the sample rate and the former contents.  The
spec defines `Init` on an existing instance only; on NULL the first store faults.  The noise
history keeps its length, which is fixed by the array type. -/
def WebRtcNsx_InitCore (populate : Nat → List Int → List Int) (inst : NsxHandle) (fs : Nat) :
    Except Fault (InitStatus × NsxHandle) :=
  if supportedRate fs then
    match inst with
    | none => .error .nullWrite
    | some s =>
      .ok (.success, some
        { real_fft := some { sizedFor := fs }
          initFlag := 1
          prevQNoise := 0
          prevNoiseU32 := List.replicate s.prevNoiseU32.length 0
          others := populate fs s.others })
  else
    .ok (.invalidArgument, inst)

/-- Function `WebRtcNsx_Init`: passes the handle, cast to the instance type, and `fs` to
`WebRtcNsx_InitCore` and returns its result. -/
def WebRtcNsx_Init (populate : Nat → List Int → List Int) (nsxInst : NsxHandle) (fs : Nat) :
    Except Fault (InitStatus × NsxHandle) :=
  WebRtcNsx_InitCore populate nsxInst fs

/-! ## `WebRtcNsx_num_freq` -/

/-- Modelled from the spec: the macro `HALF_ANAL_BLOCKL` of the absent `nsx_defines.h`, which the
spec gives as half the analysis block length plus one.  The analysis block length
`ANAL_BLOCKL_MAX` is defined in the same absent header and is a parameter. -/
def HALF_ANAL_BLOCKL (ANAL_BLOCKL_MAX : Nat) : Nat := ANAL_BLOCKL_MAX / 2 + 1

/-- Function `WebRtcNsx_num_freq`: no argument besides the constants of `nsx_defines.h`; returns
`HALF_ANAL_BLOCKL`. -/
def WebRtcNsx_num_freq (ANAL_BLOCKL_MAX : Nat) : Nat := HALF_ANAL_BLOCKL ANAL_BLOCKL_MAX

/-! ## Sample data -/

/-- A block as `malloc` may hand it back: left over from earlier use, nothing in it is zero. -/
def dirtyBlock : NoiseSuppressionFixedC :=
  { real_fft := some { sizedFor := 16000 }
    initFlag := 1
    prevQNoise := 7
    prevNoiseU32 := [5, 1, 9]
    others := [3, -4] }

/-- An instance in use: initialized, with a stored estimate in Q(11 - 3). -/
def liveInst : NoiseSuppressionFixedC :=
  { real_fft := some { sizedFor := 8000 }
    initFlag := 1
    prevQNoise := -3
    prevNoiseU32 := [40, 0, 12, 7]
    others := [1, 2] }

/-- An instance whose initialization flag is clear while its other fields are not. -/
def idleInst : NoiseSuppressionFixedC :=
  { real_fft := none
    initFlag := 0
    prevQNoise := 9
    prevNoiseU32 := [8, 8]
    others := [6] }

/-- A choice for the fields `Init` sets that the spec leaves open: clear them. -/
def clearOthers (_fs : Nat) (xs : List Int) : List Int := xs.map (fun _ => 0)

/-! ## Scenarios -/

/-- Create an instance from the block `malloc` hands back and query the noise estimate at once,
without any call of `WebRtcNsx_Init`. -/
def createThenEstimate (malloc : Option NoiseSuppressionFixedC) (q_noise : Int) :
    Except Fault NoiseEstimateResult := do
  let inst ← WebRtcNsx_Create malloc
  WebRtcNsx_noise_estimate inst q_noise

/-- Create an instance, call `WebRtcNsx_Init` with `fs` and query the noise estimate immediately
afterwards; yields the status of `Init` and the pointer the accessor returns. -/
def createInitEstimate (populate : Nat → List Int → List Int)
    (malloc : Option NoiseSuppressionFixedC) (fs : Nat) (q_noise : Int) :
    Except Fault (InitStatus × Option (List Nat)) := do
  let inst ← WebRtcNsx_Create malloc
  let (status, inst) ← WebRtcNsx_Init populate inst fs
  let r ← WebRtcNsx_noise_estimate inst q_noise
  return (status, r.ret)

/-! ## Evaluation lemmas -/

/-- An integer within the range of `int` is stored unchanged. -/
theorem wrapInt_of_fits (x : Int) (hlo : INT_MIN ≤ x) (hhi : x ≤ INT_MAX) : wrapInt x = x := by
  unfold INT_MIN at hlo
  unfold INT_MAX at hhi
  unfold wrapInt
  omega

/-- The stored value always lies within the range of `int`. -/
theorem wrapInt_range (x : Int) : INT_MIN ≤ wrapInt x ∧ wrapInt x ≤ INT_MAX := by
  unfold INT_MIN INT_MAX wrapInt
  omega

/-- On a block that was obtained, `WebRtcNsx_Create` performs its two stores and nothing else. -/
theorem Create_of_block (block : NoiseSuppressionFixedC) :
    WebRtcNsx_Create (some block) = .ok (some { block with real_fft := none, initFlag := 0 }) :=
  rfl

/-- The accessor on the NULL handle. -/
theorem noise_estimate_of_null (q : Int) :
    WebRtcNsx_noise_estimate none q =
      .ok { ret := none, mem := { nsxInst := none, q_noise := 11, reads := [] } } :=
  rfl

/-- The accessor on an instance whose initialization flag is 0. -/
theorem noise_estimate_of_idle (self : NoiseSuppressionFixedC) (q : Int)
    (h : self.initFlag = 0) :
    WebRtcNsx_noise_estimate (some self) q =
      .ok { ret := none
            mem := { nsxInst := some self, q_noise := 11, reads := [Field.initFlag] } } := by
  simp [WebRtcNsx_noise_estimate, load_initFlag, h, bind, Except.bind, pure, Except.pure]

/-- The accessor on an instance whose initialization flag is not 0. -/
theorem noise_estimate_of_live (self : NoiseSuppressionFixedC) (q : Int)
    (h : self.initFlag ≠ 0) :
    WebRtcNsx_noise_estimate (some self) q =
      .ok { ret := some self.prevNoiseU32
            mem := { nsxInst := some self
                     q_noise := wrapInt (11 + self.prevQNoise)
                     reads := [Field.initFlag, Field.prevQNoise] } } := by
  simp [WebRtcNsx_noise_estimate, load_initFlag, load_prevQNoise, addr_prevNoiseU32, h, bind,
    Except.bind, pure, Except.pure]

/-- The modelled `Init` on a present instance and a supported rate. -/
theorem Init_of_supported (populate : Nat → List Int → List Int) (s : NoiseSuppressionFixedC)
    (fs : Nat) (hfs : supportedRate fs = true) :
    WebRtcNsx_Init populate (some s) fs =
      .ok (InitStatus.success, some
        { real_fft := some { sizedFor := fs }
          initFlag := 1
          prevQNoise := 0
          prevNoiseU32 := List.replicate s.prevNoiseU32.length 0
          others := populate fs s.others }) := by
  simp [WebRtcNsx_Init, WebRtcNsx_InitCore, hfs]

/-! ## Claims -/

/-- C1: for every instance whose initialization flag is 0, whatever its other fields hold,
`WebRtcNsx_noise_estimate` returns NULL (unavailable); in particular it does so for the instance
that `WebRtcNsx_Create` has just returned from any obtained block, with no call of
`WebRtcNsx_Init` in between. -/
theorem noise_estimate_uninitialized_unavailable (self block : NoiseSuppressionFixedC)
    (q : Int) (h : self.initFlag = 0) :
    (WebRtcNsx_noise_estimate (some self) q).map (fun r => r.ret) = .ok none ∧
      (createThenEstimate (some block) q).map (fun r => r.ret) = .ok none := by
  constructor
  · rw [noise_estimate_of_idle self q h]
    rfl
  · unfold createThenEstimate
    rw [Create_of_block]
    simp only [bind, Except.bind]
    rw [noise_estimate_of_idle _ q rfl]
    rfl

/-- Witness of C1 on an instance with a clear flag and other fields set, and on a dirty block. -/
theorem noise_estimate_uninitialized_unavailable_witness :
    idleInst.initFlag = 0 ∧
      ((WebRtcNsx_noise_estimate (some idleInst) 5).map (fun r => r.ret) = .ok none ∧
        (createThenEstimate (some dirtyBlock) 5).map (fun r => r.ret) = .ok none) :=
  ⟨by decide, noise_estimate_uninitialized_unavailable idleInst dirtyBlock 5 (by decide)⟩

/-- C2: for every present instance whose initialization flag is not 0,
`WebRtcNsx_noise_estimate` returns the stored array `prevNoiseU32` as it is, and the value it
leaves in `*q_noise` is the `int` sum of the base exponent 11 and `prevQNoise`; that value is the
integer 11 + prevQNoise whenever this sum is an `int` value. -/
theorem noise_estimate_initialized_returns_estimate (self : NoiseSuppressionFixedC) (q : Int)
    (h : self.initFlag ≠ 0) :
    (WebRtcNsx_noise_estimate (some self) q).map (fun r => (r.ret, r.mem.q_noise)) =
        .ok (some self.prevNoiseU32, wrapInt (11 + self.prevQNoise)) ∧
      (INT_MIN ≤ 11 + self.prevQNoise → 11 + self.prevQNoise ≤ INT_MAX →
        (WebRtcNsx_noise_estimate (some self) q).map (fun r => (r.ret, r.mem.q_noise)) =
          .ok (some self.prevNoiseU32, 11 + self.prevQNoise)) := by
  constructor
  · rw [noise_estimate_of_live self q h]
    rfl
  · intro hlo hhi
    rw [noise_estimate_of_live self q h]
    show Except.ok (some self.prevNoiseU32, wrapInt (11 + self.prevQNoise)) = _
    rw [wrapInt_of_fits _ hlo hhi]

/-- Witness of C2 on an initialized instance with scale adjustment -3. -/
theorem noise_estimate_initialized_returns_estimate_witness :
    liveInst.initFlag ≠ 0 ∧ INT_MIN ≤ 11 + liveInst.prevQNoise ∧
      11 + liveInst.prevQNoise ≤ INT_MAX ∧
      (WebRtcNsx_noise_estimate (some liveInst) 0).map (fun r => (r.ret, r.mem.q_noise)) =
        .ok (some [40, 0, 12, 7], 8) :=
  ⟨by decide, by decide, by decide,
    (noise_estimate_initialized_returns_estimate liveInst 0 (by decide)).2
      (by decide) (by decide)⟩

/-- C3: `WebRtcNsx_noise_estimate` returns on every handle and every prior value of `*q_noise`,
and the object behind the handle is the same after the call as before it, field for field. -/
theorem noise_estimate_preserves_instance (nsxInst : NsxHandle) (q : Int) :
    (WebRtcNsx_noise_estimate nsxInst q).map (fun r => r.mem.nsxInst) = .ok nsxInst := by
  cases nsxInst with
  | none => rfl
  | some self =>
    by_cases h : self.initFlag = 0
    · rw [noise_estimate_of_idle self q h]
      rfl
    · rw [noise_estimate_of_live self q h]
      rfl

/-- C4: when `malloc` hands back a block, `WebRtcNsx_Create` returns an instance whose
`initFlag` is 0 and whose `real_fft` is NULL. -/
theorem Create_flag_clear_no_transform (block : NoiseSuppressionFixedC) :
    ∃ s, WebRtcNsx_Create (some block) = .ok (some s) ∧ s.initFlag = 0 ∧ s.real_fft = none :=
  ⟨_, Create_of_block block, rfl, rfl⟩

/-- C5, as stated, fails: from a block whose prior contents are not zero, `WebRtcNsx_Create`
returns an instance that still holds the prior `prevQNoise` and `prevNoiseU32` and is not
zeroed. -/
theorem Create_dirty_block_not_zeroed :
    (WebRtcNsx_Create (some dirtyBlock)).map
        (Option.map (fun s => (s.prevQNoise, s.prevNoiseU32, s.isZeroed))) =
      .ok (some (7, [5, 1, 9], false)) := by
  decide

/-- C5, amended: `WebRtcNsx_Create` sets `real_fft` to NULL and `initFlag` to 0 whatever the block
held, and every other field of the returned instance, `prevNoiseU32` and `prevQNoise` included,
holds what the block handed back by the allocator held. -/
theorem Create_clears_two_fields_only (block : NoiseSuppressionFixedC) :
    ∃ s, WebRtcNsx_Create (some block) = .ok (some s) ∧
      s.real_fft = none ∧ s.initFlag = 0 ∧
      s.prevQNoise = block.prevQNoise ∧ s.prevNoiseU32 = block.prevNoiseU32 ∧
      s.others = block.others :=
  ⟨_, Create_of_block block, rfl, rfl, rfl, rfl, rfl⟩

/-- C6, the code at the failing input: when `malloc` returns NULL, `WebRtcNsx_Create` does not
return at all; its first store, `self->real_fft = NULL`, goes through the NULL pointer. -/
theorem Create_null_block_faults :
    WebRtcNsx_Create none = .error Fault.nullWrite :=
  rfl

/-- C7: `WebRtcNsx_num_freq` is the constant `HALF_ANAL_BLOCKL`, half the analysis block length
plus one; it takes no handle and no memory, so the value is the same whatever instances exist. -/
theorem num_freq_half_block_plus_one (ANAL_BLOCKL_MAX : Nat) :
    WebRtcNsx_num_freq ANAL_BLOCKL_MAX = ANAL_BLOCKL_MAX / 2 + 1 :=
  rfl

/-- C8: for each of the sample rates 8000, 16000 and 32000, and any block handed back by
`malloc`, create, then `Init`, then immediately the accessor: `Init` succeeds and the accessor
returns a non-NULL estimate with as many bins as the instance stores, all of them zero. -/
theorem init_then_noise_estimate_fresh (populate : Nat → List Int → List Int)
    (block : NoiseSuppressionFixedC) (fs : Nat) (q : Int)
    (hfs : fs = 8000 ∨ fs = 16000 ∨ fs = 32000) :
    ∃ bins, createInitEstimate populate (some block) fs q =
        .ok (InitStatus.success, some bins) ∧
      bins.length = block.prevNoiseU32.length ∧ ∀ x ∈ bins, x = 0 := by
  have hs : supportedRate fs = true := by
    rcases hfs with h | h | h <;> subst h <;> decide
  refine ⟨List.replicate block.prevNoiseU32.length 0, ?_, by simp, ?_⟩
  · unfold createInitEstimate
    rw [Create_of_block]
    simp only [bind, Except.bind]
    rw [Init_of_supported populate _ fs hs]
    simp only []
    rw [noise_estimate_of_live _ q (by simp)]
    rfl
  · intro x hx
    exact List.eq_of_mem_replicate hx

/-- Witness of C8 at 16 kHz on a dirty block. -/
theorem init_then_noise_estimate_fresh_witness :
    ((16000 : Nat) = 8000 ∨ (16000 : Nat) = 16000 ∨ (16000 : Nat) = 32000) ∧
      ∃ bins, createInitEstimate clearOthers (some dirtyBlock) 16000 42 =
          .ok (InitStatus.success, some bins) ∧
        bins.length = dirtyBlock.prevNoiseU32.length ∧ ∀ x ∈ bins, x = 0 :=
  ⟨by decide, init_then_noise_estimate_fresh clearOthers dirtyBlock 16000 42 (by decide)⟩

/-- C9: on the NULL handle `WebRtcNsx_noise_estimate` returns NULL without a fault and without
having loaded any instance field: the NULL test decides before `initFlag` is looked at. -/
theorem noise_estimate_null_handle_no_read (q : Int) :
    WebRtcNsx_noise_estimate none q =
      .ok { ret := none, mem := { nsxInst := none, q_noise := 11, reads := [] } } :=
  noise_estimate_of_null q

/-- C10: the accessor returns on every input; it returns NULL exactly when the handle is NULL or
the instance has `initFlag` 0, and whenever it returns NULL the value left in `*q_noise` is
exactly 11, whatever `prevQNoise` and the prior `*q_noise` are. -/
theorem noise_estimate_unavailable_q_noise (nsxInst : NsxHandle) (q : Int) :
    ∃ r, WebRtcNsx_noise_estimate nsxInst q = .ok r ∧
      (r.ret = none ↔ (nsxInst = none ∨ ∃ s, nsxInst = some s ∧ s.initFlag = 0)) ∧
      (r.ret = none → r.mem.q_noise = 11) := by
  cases nsxInst with
  | none => exact ⟨_, noise_estimate_of_null q, by simp, fun _ => rfl⟩
  | some self =>
    by_cases h : self.initFlag = 0
    · exact ⟨_, noise_estimate_of_idle self q h, by simp [h], fun _ => rfl⟩
    · exact ⟨_, noise_estimate_of_live self q h, by simp [h], by simp⟩

/-- Witness of C10 on an instance with `initFlag` 0, `prevQNoise` 9 and prior `*q_noise` 77. -/
theorem noise_estimate_unavailable_q_noise_witness :
    (some idleInst = none ∨ ∃ s, some idleInst = some s ∧ s.initFlag = 0) ∧
      (WebRtcNsx_noise_estimate (some idleInst) 77).map (fun r => (r.ret, r.mem.q_noise)) =
        .ok (none, 11) := by
  have hidle : some idleInst = none ∨ ∃ s, some idleInst = some s ∧ s.initFlag = 0 :=
    Or.inr ⟨idleInst, rfl, by decide⟩
  obtain ⟨r, hr, hiff, hq⟩ := noise_estimate_unavailable_q_noise (some idleInst) 77
  have hn : r.ret = none := hiff.2 hidle
  refine ⟨hidle, ?_⟩
  rw [hr]
  show Except.ok (r.ret, r.mem.q_noise) = Except.ok (none, 11)
  rw [hn, hq hn]

end WebRTCNS
